import Mathlib

/-!
Verification of the Super-Cleaner cleaning engine (src/engine.rs, src/main.rs).

Shallow embedding conventions:
* A file name (or path component) is its list of characters (`Name`); an
  absolute path is its list of components (`Path`).
* The filesystem is a snapshot: a list of directories (never mutated by the
  engine, which removes files only) and a list of files with their sizes.
  The order of `FileSys.files` is the `WalkDir` traversal order; a purge of a
  root visits exactly the files under that root, in that global order.
  (`clean_directory_contents` uses `contents_first` ordering; all claims below
  compare log streams produced under one and the same ordering convention, so
  the convention itself is immaterial to them.)
* `fs::remove_file` outcomes are an oracle `remove_ok : Path → Bool` (a
  permission failure is stable under a path), `which(tool)` is an oracle
  `present : String → Bool`, and `dirs::home_dir()` is the `home` parameter.
* Every external-process invocation is recorded in `RunState.spawned`; the
  engine discards subprocess output, so recording the argv is the whole
  observable effect.
* `CleaningStats.timestamp` (a wall-clock value) is not modelled; no claim
  mentions it.
* `f64` arithmetic in `format_bytes` is modelled exactly: the only divisions
  performed are by 1024 = 2^10, which merely decrements the binary exponent
  and is exact for every value ≥ 1.0, and all unit thresholds lie below 2^53
  where `u64 as f64` is exact, so unit selection by the rational model agrees
  with the floating-point code for every input.  Rust's `{:.2}` formatting
  rounds half to even on the exact value.
-/

namespace SuperCleaner

/-- A file name or single path component, as its character list. -/
abbrev Name := List Char

/-- An absolute path, as its list of components. -/
abbrev Path := List Name

/-- Shorthand turning a string literal into a `Name`. -/
def nm (s : String) : Name := s.data

/-- A regular file of the snapshot: its path and its size in bytes
(`metadata.len()`). -/
structure FSFile where
  path : Path
  size : Nat
deriving DecidableEq

/-- A filesystem snapshot.  The engine never creates or removes directories,
so `dirs` is constant through a run; `files` is the mutable part. -/
structure FileSys where
  dirs : List Path
  files : List FSFile
deriving DecidableEq

/-- `Path::exists()`: the path names a directory or a file of the snapshot. -/
def pathExists (fs : FileSys) (p : Path) : Bool :=
  fs.dirs.contains p || fs.files.any (fun f => f.path == p)

/-- Removal of one file (`fs::remove_file`), by path. -/
def removeFileFS (fs : FileSys) (p : Path) : FileSys :=
  ⟨fs.dirs, fs.files.filter (fun f => f.path != p)⟩

/-- `path.file_name().unwrap_or_default()`: last component, or empty. -/
def fileName (p : Path) : Name := p.getLastD []

/-! ### The glob-lite matcher (engine.rs lines 129-137)

`pattern.starts_with('*')`, `pattern.ends_with('*')`, the three slicings
`&pattern[1..len-1]`, `&pattern[1..]`, `&pattern[..len-1]`, and
`str::contains` / `ends_with` / `starts_with` / `==` on the file name.
(The Rust code would panic on the bare pattern `"*"`, slicing `[1..0]`;
the catalog never uses it, and the model totalises that case.) -/

/-- `pattern.starts_with('*')`. -/
def startsWithStar (p : Name) : Bool := p.head? == some '*'

/-- `pattern.ends_with('*')`. -/
def endsWithStar (p : Name) : Bool := p.getLast? == some '*'

/-- `name.contains(sub)`: some tail of `name` has `sub` as a prefix. -/
def containsSub (sub name : Name) : Bool :=
  name.tails.any (fun t => sub.isPrefixOf t)

/-- The match test of `clean_files_by_pattern` (engine.rs 129-137). -/
def matchesPattern (pattern name : Name) : Bool :=
  if startsWithStar pattern && endsWithStar pattern then
    containsSub ((pattern.drop 1).dropLast) name
  else if startsWithStar pattern then
    (pattern.drop 1).isSuffixOf name
  else if endsWithStar pattern then
    (pattern.dropLast).isPrefixOf name
  else
    name == pattern

/-! ### Statistics (engine.rs 10-36) -/

/-- `CleaningStats` (timestamp not modelled). -/
structure CleaningStats where
  files_deleted : Nat
  bytes_freed : Nat
  directories_cleaned : Nat
deriving DecidableEq

/-- `CleaningStats::new()`. -/
def CleaningStats.new : CleaningStats := ⟨0, 0, 0⟩

/-- `CleaningStats::add_file(size)`. -/
def CleaningStats.add_file (s : CleaningStats) (size : Nat) : CleaningStats :=
  ⟨s.files_deleted + 1, s.bytes_freed + size, s.directories_cleaned⟩

/-- `CleaningStats::add_directory()` (declared in the source, never called). -/
def CleaningStats.add_directory (s : CleaningStats) : CleaningStats :=
  ⟨s.files_deleted, s.bytes_freed, s.directories_cleaned + 1⟩

/-! ### format_bytes (engine.rs 77-86) -/

/-- The unit table `UNITS`. -/
def UNITS : List String := ["B", "KB", "MB", "GB", "TB"]

/-- The `while size >= 1024.0 && unit_index < UNITS.len() - 1` loop.  After
`i` iterations `size = bytes / 1024^i` exactly (see the header note on f64),
so the guard `size >= 1024.0` is `1024^(i+1) ≤ bytes`.  The guard `i < 4`
bounds the iteration count by 4, so fuel 4 is exact. -/
def unitIndexLoop : Nat → Nat → Nat → Nat
  | 0, _, i => i
  | fuel + 1, bytes, i =>
      if 1024 ^ (i + 1) ≤ bytes ∧ i < 4 then unitIndexLoop fuel bytes (i + 1)
      else i

/-- The final `unit_index` of `format_bytes`. -/
def unit_index (bytes : Nat) : Nat := unitIndexLoop 4 bytes 0

/-- Nearest integer to `x / d`, ties to even — the rounding `{:.2}` applies
(here to the hundredfold of the displayed quantity). -/
def roundHalfEven (x d : Nat) : Nat :=
  let q := x / d
  let r := x % d
  if 2 * r < d then q
  else if d < 2 * r then q + 1
  else if q % 2 == 0 then q else q + 1

/-- Two-digit zero-padded rendering of the fractional part. -/
def twoDigits (n : Nat) : String :=
  if n < 10 then "0" ++ Nat.repr n else Nat.repr n

/-- `format_bytes` (engine.rs 77-86): `format!("{:.2} {}", size, UNITS[i])`
with `size = bytes / 1024^unit_index` exactly. -/
def format_bytes (bytes : Nat) : String :=
  let i := unit_index bytes
  let h := roundHalfEven (100 * bytes) (1024 ^ i)
  Nat.repr (h / 100) ++ "." ++ twoDigits (h % 100) ++ " " ++ UNITS.getD i ""

/-! ### Engine state

`SystemCleaner` carries `dry_run` and the environment oracles; the run state
carries the filesystem, the log stream (the callback of main.rs appends each
message to a vector, in emission order), the statistics, and the list of
spawned processes. -/

/-- The `SystemCleaner` configuration plus environment oracles. -/
structure Engine where
  dry_run : Bool
  remove_ok : Path → Bool
  present : String → Bool
  home : Path

/-- The observable state of one run. -/
structure RunState where
  fs : FileSys
  logs : List String
  stats : CleaningStats
  spawned : List (List String)
deriving DecidableEq

/-- `self.log(message)`: the callback appends the message. -/
def logMsg (s : RunState) (m : String) : RunState :=
  ⟨s.fs, s.logs ++ [m], s.stats, s.spawned⟩

/-- `ProcessCommand::new(prog).args(args).output()` (output discarded). -/
def spawn (s : RunState) (cmd : List String) : RunState :=
  ⟨s.fs, s.logs, s.stats, s.spawned ++ [cmd]⟩

/-- The log line `format!("Deleted: {} ({})", filename, format_bytes(size))`. -/
def deletedLine (name : Name) (size : Nat) : String :=
  "Deleted: " ++ String.mk name ++ " (" ++ format_bytes size ++ ")"

/-- The per-file body shared by both purge loops (engine.rs 109-116 and
139-147): attempt removal unless dry-run, and on success (always, in
dry-run) log the line and update the statistics.  `todo` is the fixed
sequence of files the loop ranges over. -/
def processFiles (e : Engine) : List FSFile → RunState → RunState
  | [], s => s
  | f :: rest, s =>
      let success := if !e.dry_run then e.remove_ok f.path else true
      let s1 : RunState :=
        if !e.dry_run && e.remove_ok f.path then
          ⟨removeFileFS s.fs f.path, s.logs, s.stats, s.spawned⟩
        else s
      let s2 : RunState :=
        if success then
          ⟨s1.fs, s1.logs ++ [deletedLine (fileName f.path) f.size],
           s1.stats.add_file f.size, s1.spawned⟩
        else s1
      processFiles e rest s2

/-- The `files_to_delete` list of `clean_directory_contents` (engine.rs
98-107): every file strictly below `dir` (`min_depth(1)` excludes the root
itself), guarded by `dir.exists()`. -/
def dirCandidates (fs : FileSys) (dir : Path) : List FSFile :=
  if pathExists fs dir then
    fs.files.filter (fun f => dir.isPrefixOf f.path && f.path != dir)
  else []

/-- The files `clean_files_by_pattern` (engine.rs 125-139) is going to visit
and match: `WalkDir::new(dir)` yields every file at or below `dir` (depth 0
included), and the matcher filters by file name.  The walk yields each entry
once and the loop only ever removes the entry just yielded, so the yielded
sequence is the one determined by the snapshot at call time. -/
def patCandidates (fs : FileSys) (dir : Path) (pattern : Name) : List FSFile :=
  if pathExists fs dir then
    fs.files.filter
      (fun f => dir.isPrefixOf f.path && matchesPattern pattern (fileName f.path))
  else []

/-- `clean_directory_contents` (engine.rs 94-118). -/
def clean_directory_contents (e : Engine) (dir : Path) (s : RunState) : RunState :=
  processFiles e (dirCandidates s.fs dir) s

/-- `clean_files_by_pattern` (engine.rs 120-151). -/
def clean_files_by_pattern (e : Engine) (dir : Path) (pattern : Name)
    (s : RunState) : RunState :=
  processFiles e (patCandidates s.fs dir pattern) s

/-! ### The operation catalog (engine.rs 153-321) -/

/-- `clean_system_cache` (engine.rs 155-163). -/
def clean_system_cache (e : Engine) (s : RunState) : RunState :=
  let s := clean_directory_contents e [nm "var", nm "cache"] s
  let s := clean_directory_contents e [nm "tmp"] s
  let s := clean_directory_contents e [nm "var", nm "tmp"] s
  clean_directory_contents e (e.home ++ [nm ".cache"]) s

/-- `clean_trash` (engine.rs 165-170). -/
def clean_trash (e : Engine) (s : RunState) : RunState :=
  let s := logMsg s "🗑️ Emptying Trash..."
  clean_directory_contents e (e.home ++ [nm ".local", nm "share", nm "Trash"]) s

/-- `clean_logs` (engine.rs 172-181). -/
def clean_logs (e : Engine) (s : RunState) : RunState :=
  let s := logMsg s "📜 Cleaning System Logs..."
  let s := clean_directory_contents e [nm "var", nm "log"] s
  let s := clean_files_by_pattern e (e.home ++ [nm ".local", nm "share"]) (nm "*.log") s
  clean_files_by_pattern e (e.home ++ [nm ".config"]) (nm "*.log") s

/-- `clean_thumbnails` (engine.rs 183-195). -/
def clean_thumbnails (e : Engine) (s : RunState) : RunState :=
  let s := logMsg s "🖼️ Cleaning Thumbnails..."
  let s := clean_directory_contents e (e.home ++ [nm ".thumbnails"]) s
  let s := clean_directory_contents e (e.home ++ [nm ".cache", nm "thumbnails"]) s
  clean_directory_contents e (e.home ++ [nm ".local", nm "share", nm "thumbnails"]) s

/-- `clean_clipboard` (engine.rs 197-203): note that the log emission itself
sits behind `which("xclip").is_ok() && !self.dry_run`. -/
def clean_clipboard (e : Engine) (s : RunState) : RunState :=
  if e.present "xclip" && !e.dry_run then
    spawn (logMsg s "📋 Clearing Clipboard...")
      ["xclip", "-selection", "clipboard", "/dev/null"]
  else s

/-- `clean_recent_docs` (engine.rs 205-209). -/
def clean_recent_docs (e : Engine) (s : RunState) : RunState :=
  clean_files_by_pattern e (e.home ++ [nm ".local", nm "share"])
    (nm "recently-used.xbel") s

/-- `clean_broken_desktop_files` (engine.rs 211-224): logs the scan header;
the walk body is empty (scan-only placeholder), so nothing else happens. -/
def clean_broken_desktop_files (_e : Engine) (s : RunState) : RunState :=
  logMsg s "🔗 Scanning broken shortcuts..."

/-- `clean_python_cache` (engine.rs 228-234).  The `__pycache__` pattern has
no wildcard, so it is an exact-name file match (directory removal is a no-op
in this version, as the source comment notes). -/
def clean_python_cache (e : Engine) (s : RunState) : RunState :=
  let s := logMsg s "🐍 Cleaning Python Cache..."
  let s := clean_files_by_pattern e e.home (nm "*.pyc") s
  clean_files_by_pattern e e.home (nm "__pycache__") s

/-- `clean_vim` (engine.rs 236-243). -/
def clean_vim (e : Engine) (s : RunState) : RunState :=
  let s := logMsg s "📝 Cleaning Vim Swap files..."
  let s := clean_files_by_pattern e e.home (nm "*.swp") s
  let s := clean_files_by_pattern e e.home (nm "*.swo") s
  clean_files_by_pattern e (e.home ++ [nm ".vim"]) (nm "*.swp") s

/-- `clean_backup_files` (engine.rs 245-251). -/
def clean_backup_files (e : Engine) (s : RunState) : RunState :=
  let s := logMsg s "💾 Cleaning Backup files..."
  let s := clean_files_by_pattern e e.home (nm "*~") s
  clean_files_by_pattern e e.home (nm "*.bak") s

/-- `clean_apt` (engine.rs 255-264). -/
def clean_apt (e : Engine) (s : RunState) : RunState :=
  if e.present "apt-get" then
    let s := logMsg s "📦 Running APT cleanup..."
    if !e.dry_run then
      spawn (spawn s ["apt-get", "autoremove", "-y"]) ["apt-get", "clean"]
    else s
  else s

/-- `clean_dnf` (engine.rs 266-275). -/
def clean_dnf (e : Engine) (s : RunState) : RunState :=
  if e.present "dnf" then
    let s := logMsg s "📦 Running DNF cleanup..."
    if !e.dry_run then
      spawn (spawn s ["dnf", "autoremove", "-y"]) ["dnf", "clean", "all"]
    else s
  else s

/-- `clean_flatpak` (engine.rs 277-288): the `~/.var/app` purge is inside
the `which("flatpak")` guard. -/
def clean_flatpak (e : Engine) (s : RunState) : RunState :=
  if e.present "flatpak" then
    let s := logMsg s "📦 Cleaning Flatpak cache..."
    let s := if !e.dry_run then spawn s ["flatpak", "uninstall", "--unused", "-y"] else s
    clean_directory_contents e (e.home ++ [nm ".var", nm "app"]) s
  else s

/-- The directories named `cache2` found by the deep search of
`clean_firefox_cache` (engine.rs 299-303).  Directories are never removed,
so this set is stable through a run. -/
def cache2Dirs (fs : FileSys) (root : Path) : List Path :=
  fs.dirs.filter (fun d => root.isPrefixOf d && fileName d == nm "cache2")

/-- `clean_firefox_cache` (engine.rs 292-306). -/
def clean_firefox_cache (e : Engine) (s : RunState) : RunState :=
  let s := logMsg s "🔥 Cleaning Firefox Cache..."
  let ff := e.home ++ [nm ".mozilla", nm "firefox"]
  if pathExists s.fs ff then
    (cache2Dirs s.fs ff).foldl (fun st d => clean_directory_contents e d st) s
  else s

/-- `clean_chrome_cache` (engine.rs 308-313). -/
def clean_chrome_cache (e : Engine) (s : RunState) : RunState :=
  let s := logMsg s "🌐 Cleaning Chrome Cache..."
  clean_directory_contents e
    (e.home ++ [nm ".config", nm "google-chrome", nm "Default", nm "Cache"]) s

/-- `clean_brave_cache` (engine.rs 315-320). -/
def clean_brave_cache (e : Engine) (s : RunState) : RunState :=
  let s := logMsg s "🦁 Cleaning Brave Cache..."
  clean_directory_contents e
    (e.home ++ [nm ".config", nm "BraveSoftware", nm "Brave-Browser", nm "Default", nm "Cache"]) s

/-! ### The orchestrator (main.rs 245-313) -/

/-- The dispatch of one enabled identifier (the `match` of main.rs 284-305).
Unknown identifiers fall through to the final else (the `_ => {}` arm). -/
def dispatchOp (e : Engine) (id : String) (s : RunState) : RunState :=
  if id == "tmp" || id == "var_cache" then clean_system_cache e s
  else if id == "trash" then clean_trash e s
  else if id == "logs" then clean_logs e s
  else if id == "thumbnails" then clean_thumbnails e s
  else if id == "clipboard" then clean_clipboard e s
  else if id == "recent_docs" then clean_recent_docs e s
  else if id == "broken_desktop" then clean_broken_desktop_files e s
  else if id == "chrome_cache" then clean_chrome_cache e s
  else if id == "firefox_cache" then clean_firefox_cache e s
  else if id == "brave_cache" then clean_brave_cache e s
  else if id == "pycache" then clean_python_cache e s
  else if id == "vim" then clean_vim e s
  else if id == "backup_files" then clean_backup_files e s
  else if id == "apt" then clean_apt e s
  else if id == "dnf" then clean_dnf e s
  else if id == "flatpak" then clean_flatpak e s
  else s

/-- Run start (main.rs 245-254): the log vector is cleared and the
`SystemCleaner` is fresh, so statistics start from zero. -/
def initState (fs : FileSys) : RunState := ⟨fs, [], CleaningStats.new, []⟩

/-- `run_process` (main.rs 245-313): the worker thread dispatches the enabled
identifiers strictly in order.  The 50 ms pause between operations has no
observable effect in this model. -/
def run_process (e : Engine) (ids : List String) (fs : FileSys) : RunState :=
  ids.foldl (fun s id => dispatchOp e id s) (initState fs)

/-! ### Executor lemmas -/

/-- The per-file `success` flag of both loops: always true in dry-run,
`remove_ok` in live mode. -/
def attemptOk (e : Engine) (p : Path) : Bool := e.dry_run || e.remove_ok p

/-- The log lines a dry-run purge of `dir` emits. -/
def dryPurgeLogs (fs : FileSys) (dir : Path) : List String :=
  (dirCandidates fs dir).map (fun f => deletedLine (fileName f.path) f.size)

/-- `opFrame e op` collects the invariants every catalog operation
maintains: `directories_cleaned` is never incremented (`add_directory` has
no call site), and in dry-run mode neither the filesystem nor the spawn
list changes. -/
def opFrame (e : Engine) (op : RunState → RunState) : Prop :=
  ∀ s : RunState,
    (op s).stats.directories_cleaned = s.stats.directories_cleaned ∧
    (e.dry_run = true → (op s).fs = s.fs ∧ (op s).spawned = s.spawned)

/-- The four purge roots of `clean_system_cache`, in execution order. -/
def sysDirsList (home : Path) : List Path :=
  [[nm "var", nm "cache"], [nm "tmp"], [nm "var", nm "tmp"], home ++ [nm ".cache"]]

/-- Concatenated dry-run logs of a list of directory purges over one fixed
snapshot. -/
def dryLogsAll (fs : FileSys) (ds : List Path) : List String :=
  ds.foldr (fun d acc => dryPurgeLogs fs d ++ acc) []

/-- Total dry-run file count of a list of directory purges. -/
def dryCountAll (fs : FileSys) (ds : List Path) : Nat :=
  ds.foldr (fun d acc => (dirCandidates fs d).length + acc) 0

/-- Total dry-run byte count of a list of directory purges. -/
def dryBytesAll (fs : FileSys) (ds : List Path) : Nat :=
  ds.foldr (fun d acc => ((dirCandidates fs d).map FSFile.size).sum + acc) 0

/-- The home directory used by the concrete scenarios. -/
def home3 : Path := [nm "home", nm "user"]

/-- The end-to-end snapshot of the spec: `~/.local/share/Trash/file1`
(10 bytes) and `~/.vim/session.swp` (5 bytes) are the only files. -/
def fs3 : FileSys :=
  ⟨[home3, home3 ++ [nm ".local"], home3 ++ [nm ".local", nm "share"],
    home3 ++ [nm ".local", nm "share", nm "Trash"], home3 ++ [nm ".vim"]],
   [⟨home3 ++ [nm ".local", nm "share", nm "Trash", nm "file1"], 10⟩,
    ⟨home3 ++ [nm ".vim", nm "session.swp"], 5⟩]⟩

/-- A snapshot with a single vim swap file under `~/.vim`. -/
def fsV : FileSys :=
  ⟨[home3, home3 ++ [nm ".vim"]],
   [⟨home3 ++ [nm ".vim", nm "x.swp"], 5⟩]⟩

lemma success_eq (e : Engine) (p : Path) :
    (if !e.dry_run then e.remove_ok p else true) = attemptOk e p := by
  cases hd : e.dry_run <;> simp [attemptOk, hd]

/-- The log lines a batch emits: one `Deleted:` line per file whose removal
(real or simulated) succeeded, in batch order. -/
lemma processFiles_logs (e : Engine) :
    ∀ (todo : List FSFile) (s : RunState),
      (processFiles e todo s).logs =
        s.logs ++ (todo.filter (fun f => attemptOk e f.path)).map
          (fun f => deletedLine (fileName f.path) f.size)
  | [], s => by simp [processFiles]
  | f :: rest, s => by
      by_cases hd : e.dry_run <;> by_cases hr : e.remove_ok f.path <;>
        simp [processFiles, hd, hr, attemptOk, processFiles_logs e rest]

/-- The statistics deltas of a batch: one file and its byte size per
successful removal; `directories_cleaned` untouched. -/
lemma processFiles_stats (e : Engine) :
    ∀ (todo : List FSFile) (s : RunState),
      (processFiles e todo s).stats.files_deleted =
        s.stats.files_deleted + (todo.filter (fun f => attemptOk e f.path)).length ∧
      (processFiles e todo s).stats.bytes_freed =
        s.stats.bytes_freed +
          (((todo.filter (fun f => attemptOk e f.path)).map FSFile.size).sum) ∧
      (processFiles e todo s).stats.directories_cleaned =
        s.stats.directories_cleaned
  | [], s => by simp [processFiles]
  | f :: rest, s => by
      by_cases hd : e.dry_run <;> by_cases hr : e.remove_ok f.path <;>
        simp [processFiles, hd, hr, attemptOk, processFiles_stats e rest,
          CleaningStats.add_file] <;> omega

/-- A purge batch spawns no process. -/
lemma processFiles_spawned (e : Engine) :
    ∀ (todo : List FSFile) (s : RunState),
      (processFiles e todo s).spawned = s.spawned
  | [], s => by simp [processFiles]
  | f :: rest, s => by
      by_cases hd : e.dry_run <;> by_cases hr : e.remove_ok f.path <;>
        simp [processFiles, hd, hr, processFiles_spawned e rest]

/-- In dry-run a batch never touches the filesystem. -/
lemma processFiles_fs_dry (e : Engine) (hd : e.dry_run = true) :
    ∀ (todo : List FSFile) (s : RunState),
      (processFiles e todo s).fs = s.fs
  | [], s => by simp [processFiles]
  | f :: rest, s => by
      simp [processFiles, hd, processFiles_fs_dry e hd rest]

/-- A file whose removal the environment refuses survives the whole batch. -/
lemma processFiles_fs_keep (e : Engine) :
    ∀ (todo : List FSFile) (s : RunState) (f : FSFile),
      f ∈ s.fs.files → e.remove_ok f.path = false →
      f ∈ (processFiles e todo s).fs.files
  | [], s, f, hmem, _ => by simpa [processFiles] using hmem
  | g :: rest, s, f, hmem, hok => by
      show f ∈ (processFiles e (g :: rest) s).fs.files
      rw [show processFiles e (g :: rest) s = _ from rfl]
      refine processFiles_fs_keep e rest _ f ?_ hok
      by_cases hd : e.dry_run
      · simpa [hd] using hmem
      · by_cases hr : e.remove_ok g.path
        · have hne : (f.path != g.path) = true := by
            cases hb : (f.path != g.path)
            · exfalso
              have hpq : f.path = g.path := by simpa using hb
              rw [hpq] at hok; rw [hok] at hr; cases hr
            · rfl
          simp [hd, hr, removeFileFS, List.mem_filter, hmem, hne]
        · simpa [hd, hr] using hmem

/-- Full characterisation of a dry-run batch: filesystem and spawn list
unchanged, one log line and one stats increment per file of the batch. -/
lemma processFiles_dry (e : Engine) (hd : e.dry_run = true) :
    ∀ (todo : List FSFile) (s : RunState),
      processFiles e todo s =
        ⟨s.fs,
         s.logs ++ todo.map (fun f => deletedLine (fileName f.path) f.size),
         ⟨s.stats.files_deleted + todo.length,
          s.stats.bytes_freed + (todo.map FSFile.size).sum,
          s.stats.directories_cleaned⟩,
         s.spawned⟩
  | [], s => by simp [processFiles]
  | f :: rest, s => by
      simp [processFiles, hd, processFiles_dry e hd rest, CleaningStats.add_file,
        Nat.add_assoc, Nat.add_comm 1]

/-- Full characterisation of a dry-run directory purge. -/
lemma cdc_dry (e : Engine) (hd : e.dry_run = true) (dir : Path) (s : RunState) :
    clean_directory_contents e dir s =
      ⟨s.fs,
       s.logs ++ dryPurgeLogs s.fs dir,
       ⟨s.stats.files_deleted + (dirCandidates s.fs dir).length,
        s.stats.bytes_freed + ((dirCandidates s.fs dir).map FSFile.size).sum,
        s.stats.directories_cleaned⟩,
       s.spawned⟩ := by
  simp [clean_directory_contents, processFiles_dry e hd, dryPurgeLogs]

/-! ### Frame invariants

`opFrame e op` collects the invariants every catalog operation maintains:
`directories_cleaned` is never incremented (`add_directory` has no caller),
and in dry-run mode neither the filesystem nor the spawn list changes. -/

lemma opFrame_id (e : Engine) : opFrame e (fun s => s) :=
  fun _ => ⟨rfl, fun _ => ⟨rfl, rfl⟩⟩

lemma opFrame_comp {e : Engine} {op1 op2 : RunState → RunState}
    (h1 : opFrame e op1) (h2 : opFrame e op2) :
    opFrame e (fun s => op2 (op1 s)) := by
  intro s
  obtain ⟨d1, f1⟩ := h1 s
  obtain ⟨d2, f2⟩ := h2 (op1 s)
  refine ⟨d2.trans d1, fun hd => ?_⟩
  obtain ⟨hf1, hs1⟩ := f1 hd
  obtain ⟨hf2, hs2⟩ := f2 hd
  exact ⟨hf2.trans hf1, hs2.trans hs1⟩

lemma opFrame_processFiles (e : Engine) (todo : List FSFile) :
    opFrame e (fun s => processFiles e todo s) := by
  intro s
  refine ⟨(processFiles_stats e todo s).2.2, fun hd => ?_⟩
  exact ⟨processFiles_fs_dry e hd todo s, processFiles_spawned e todo s⟩

lemma opFrame_cdc (e : Engine) (dir : Path) :
    opFrame e (fun s => clean_directory_contents e dir s) := by
  intro s
  simpa [clean_directory_contents] using opFrame_processFiles e (dirCandidates s.fs dir) s

lemma opFrame_cfp (e : Engine) (dir : Path) (pat : Name) :
    opFrame e (fun s => clean_files_by_pattern e dir pat s) := by
  intro s
  simpa [clean_files_by_pattern] using
    opFrame_processFiles e (patCandidates s.fs dir pat) s

lemma opFrame_logMsg (e : Engine) (m : String) :
    opFrame e (fun s => logMsg s m) :=
  fun _ => ⟨rfl, fun _ => ⟨rfl, rfl⟩⟩

lemma opFrame_foldl_cdc (e : Engine) :
    ∀ (ds : List Path),
      opFrame e (fun s => ds.foldl (fun st d => clean_directory_contents e d st) s)
  | [] => opFrame_id e
  | d :: ds => by
      have h := opFrame_comp (opFrame_cdc e d) (opFrame_foldl_cdc e ds)
      intro s
      simpa [List.foldl_cons] using h s

lemma opFrame_clean_system_cache (e : Engine) :
    opFrame e (fun s => clean_system_cache e s) := by
  have h := opFrame_comp (opFrame_comp (opFrame_comp
    (opFrame_cdc e [nm "var", nm "cache"]) (opFrame_cdc e [nm "tmp"]))
    (opFrame_cdc e [nm "var", nm "tmp"])) (opFrame_cdc e (e.home ++ [nm ".cache"]))
  intro s
  exact h s

lemma opFrame_clean_trash (e : Engine) :
    opFrame e (fun s => clean_trash e s) := by
  have h := opFrame_comp (opFrame_logMsg e "🗑️ Emptying Trash...")
    (opFrame_cdc e (e.home ++ [nm ".local", nm "share", nm "Trash"]))
  intro s
  exact h s

lemma opFrame_clean_logs (e : Engine) :
    opFrame e (fun s => clean_logs e s) := by
  have h := opFrame_comp (opFrame_comp (opFrame_comp
    (opFrame_logMsg e "📜 Cleaning System Logs...")
    (opFrame_cdc e [nm "var", nm "log"]))
    (opFrame_cfp e (e.home ++ [nm ".local", nm "share"]) (nm "*.log")))
    (opFrame_cfp e (e.home ++ [nm ".config"]) (nm "*.log"))
  intro s
  exact h s

lemma opFrame_clean_thumbnails (e : Engine) :
    opFrame e (fun s => clean_thumbnails e s) := by
  have h := opFrame_comp (opFrame_comp (opFrame_comp
    (opFrame_logMsg e "🖼️ Cleaning Thumbnails...")
    (opFrame_cdc e (e.home ++ [nm ".thumbnails"])))
    (opFrame_cdc e (e.home ++ [nm ".cache", nm "thumbnails"])))
    (opFrame_cdc e (e.home ++ [nm ".local", nm "share", nm "thumbnails"]))
  intro s
  exact h s

lemma opFrame_clean_clipboard (e : Engine) :
    opFrame e (fun s => clean_clipboard e s) := by
  intro s
  unfold clean_clipboard
  split
  · next hc =>
      refine ⟨rfl, fun hd => ?_⟩
      rw [hd] at hc; simp at hc
  · exact ⟨rfl, fun _ => ⟨rfl, rfl⟩⟩

lemma opFrame_clean_recent_docs (e : Engine) :
    opFrame e (fun s => clean_recent_docs e s) := by
  have h := opFrame_cfp e (e.home ++ [nm ".local", nm "share"]) (nm "recently-used.xbel")
  intro s
  exact h s

lemma opFrame_clean_broken_desktop (e : Engine) :
    opFrame e (fun s => clean_broken_desktop_files e s) := by
  have h := opFrame_logMsg e "🔗 Scanning broken shortcuts..."
  intro s
  exact h s

lemma opFrame_clean_python (e : Engine) :
    opFrame e (fun s => clean_python_cache e s) := by
  have h := opFrame_comp (opFrame_comp
    (opFrame_logMsg e "🐍 Cleaning Python Cache...")
    (opFrame_cfp e e.home (nm "*.pyc")))
    (opFrame_cfp e e.home (nm "__pycache__"))
  intro s
  exact h s

lemma opFrame_clean_vim (e : Engine) :
    opFrame e (fun s => clean_vim e s) := by
  have h := opFrame_comp (opFrame_comp (opFrame_comp
    (opFrame_logMsg e "📝 Cleaning Vim Swap files...")
    (opFrame_cfp e e.home (nm "*.swp")))
    (opFrame_cfp e e.home (nm "*.swo")))
    (opFrame_cfp e (e.home ++ [nm ".vim"]) (nm "*.swp"))
  intro s
  exact h s

lemma opFrame_clean_backup (e : Engine) :
    opFrame e (fun s => clean_backup_files e s) := by
  have h := opFrame_comp (opFrame_comp
    (opFrame_logMsg e "💾 Cleaning Backup files...")
    (opFrame_cfp e e.home (nm "*~")))
    (opFrame_cfp e e.home (nm "*.bak"))
  intro s
  exact h s

lemma opFrame_clean_apt (e : Engine) :
    opFrame e (fun s => clean_apt e s) := by
  intro s
  unfold clean_apt
  split
  · split
    · next hlive =>
        refine ⟨rfl, fun hd => ?_⟩
        rw [hd] at hlive; simp at hlive
    · exact ⟨rfl, fun _ => ⟨rfl, rfl⟩⟩
  · exact ⟨rfl, fun _ => ⟨rfl, rfl⟩⟩

lemma opFrame_clean_dnf (e : Engine) :
    opFrame e (fun s => clean_dnf e s) := by
  intro s
  unfold clean_dnf
  split
  · split
    · next hlive =>
        refine ⟨rfl, fun hd => ?_⟩
        rw [hd] at hlive; simp at hlive
    · exact ⟨rfl, fun _ => ⟨rfl, rfl⟩⟩
  · exact ⟨rfl, fun _ => ⟨rfl, rfl⟩⟩

lemma opFrame_clean_flatpak (e : Engine) :
    opFrame e (fun s => clean_flatpak e s) := by
  intro s
  unfold clean_flatpak
  split
  · split
    · next hlive =>
        have h := opFrame_cdc e (Engine.home e ++ [nm ".var", nm "app"])
        refine ⟨(h _).1, fun hd => ?_⟩
        rw [hd] at hlive; simp at hlive
    · have h := opFrame_cdc e (Engine.home e ++ [nm ".var", nm "app"])
      exact ⟨(h _).1, fun hd => ⟨((h _).2 hd).1, ((h _).2 hd).2⟩⟩
  · exact ⟨rfl, fun _ => ⟨rfl, rfl⟩⟩

lemma opFrame_clean_firefox (e : Engine) :
    opFrame e (fun s => clean_firefox_cache e s) := by
  intro s
  simp only [clean_firefox_cache]
  split
  · exact ⟨(opFrame_foldl_cdc e _ _).1, fun hd =>
      ⟨((opFrame_foldl_cdc e _ _).2 hd).1, ((opFrame_foldl_cdc e _ _).2 hd).2⟩⟩
  · exact ⟨rfl, fun _ => ⟨rfl, rfl⟩⟩

lemma opFrame_clean_chrome (e : Engine) :
    opFrame e (fun s => clean_chrome_cache e s) := by
  have h := opFrame_comp (opFrame_logMsg e "🌐 Cleaning Chrome Cache...")
    (opFrame_cdc e (e.home ++ [nm ".config", nm "google-chrome", nm "Default", nm "Cache"]))
  intro s
  exact h s

lemma opFrame_clean_brave (e : Engine) :
    opFrame e (fun s => clean_brave_cache e s) := by
  have h := opFrame_comp (opFrame_logMsg e "🦁 Cleaning Brave Cache...")
    (opFrame_cdc e (e.home ++ [nm ".config", nm "BraveSoftware", nm "Brave-Browser", nm "Default", nm "Cache"]))
  intro s
  exact h s

lemma opFrame_ite (e : Engine) (c : Prop) [Decidable c]
    (op1 op2 : RunState → RunState)
    (h1 : opFrame e op1) (h2 : opFrame e op2) :
    opFrame e (fun s => if c then op1 s else op2 s) := by
  intro s
  by_cases hc : c
  · simpa [hc] using h1 s
  · simpa [hc] using h2 s

lemma opFrame_dispatch (e : Engine) (id : String) :
    opFrame e (fun s => dispatchOp e id s) := by
  have h17 := opFrame_id e
  have h16 := opFrame_ite e ((id == "flatpak") = true) _ _ (opFrame_clean_flatpak e) h17
  have h15 := opFrame_ite e ((id == "dnf") = true) _ _ (opFrame_clean_dnf e) h16
  have h14 := opFrame_ite e ((id == "apt") = true) _ _ (opFrame_clean_apt e) h15
  have h13 := opFrame_ite e ((id == "backup_files") = true) _ _ (opFrame_clean_backup e) h14
  have h12 := opFrame_ite e ((id == "vim") = true) _ _ (opFrame_clean_vim e) h13
  have h11 := opFrame_ite e ((id == "pycache") = true) _ _ (opFrame_clean_python e) h12
  have h10 := opFrame_ite e ((id == "brave_cache") = true) _ _ (opFrame_clean_brave e) h11
  have h9 := opFrame_ite e ((id == "firefox_cache") = true) _ _ (opFrame_clean_firefox e) h10
  have h8 := opFrame_ite e ((id == "chrome_cache") = true) _ _ (opFrame_clean_chrome e) h9
  have h7 := opFrame_ite e ((id == "broken_desktop") = true) _ _ (opFrame_clean_broken_desktop e) h8
  have h6 := opFrame_ite e ((id == "recent_docs") = true) _ _ (opFrame_clean_recent_docs e) h7
  have h5 := opFrame_ite e ((id == "clipboard") = true) _ _ (opFrame_clean_clipboard e) h6
  have h4 := opFrame_ite e ((id == "thumbnails") = true) _ _ (opFrame_clean_thumbnails e) h5
  have h3 := opFrame_ite e ((id == "logs") = true) _ _ (opFrame_clean_logs e) h4
  have h2 := opFrame_ite e ((id == "trash") = true) _ _ (opFrame_clean_trash e) h3
  have h1 := opFrame_ite e ((id == "tmp" || id == "var_cache") = true) _ _
    (opFrame_clean_system_cache e) h2
  intro s
  exact h1 s

/-- The run-level frame: folding the dispatcher over any identifier list
preserves `directories_cleaned`, and in dry-run also the filesystem and the
spawn list. -/
lemma run_foldl_frame (e : Engine) :
    ∀ (ids : List String) (s : RunState),
      ((ids.foldl (fun st id => dispatchOp e id st) s).stats.directories_cleaned =
        s.stats.directories_cleaned) ∧
      (e.dry_run = true →
        (ids.foldl (fun st id => dispatchOp e id st) s).fs = s.fs ∧
        (ids.foldl (fun st id => dispatchOp e id st) s).spawned = s.spawned)
  | [], _ => ⟨rfl, fun _ => ⟨rfl, rfl⟩⟩
  | id :: ids, s => by
      have h1 := opFrame_dispatch e id s
      have h2 := run_foldl_frame e ids (dispatchOp e id s)
      simp only [List.foldl_cons]
      exact ⟨h2.1.trans h1.1, fun hd =>
        ⟨((h2.2 hd).1).trans ((h1.2 hd).1), ((h2.2 hd).2).trans ((h1.2 hd).2)⟩⟩

/-! ### Dry-run characterisation of `clean_system_cache` -/

lemma clean_system_cache_dry (e : Engine) (hd : e.dry_run = true) (s : RunState) :
    clean_system_cache e s =
      ⟨s.fs,
       s.logs ++ dryLogsAll s.fs (sysDirsList e.home),
       ⟨s.stats.files_deleted + dryCountAll s.fs (sysDirsList e.home),
        s.stats.bytes_freed + dryBytesAll s.fs (sysDirsList e.home),
        s.stats.directories_cleaned⟩,
       s.spawned⟩ := by
  simp [clean_system_cache, cdc_dry e hd, sysDirsList, dryLogsAll, dryCountAll,
    dryBytesAll, List.append_assoc, Nat.add_assoc]

/-! ### Claim theorems -/

/-- C1: in every Dry-run, over every enabled-operation list, the filesystem
snapshot is unchanged by the whole run and no external process is ever
spawned: every `remove_file` and every `ProcessCommand` sits behind a
`!dry_run` guard. -/
theorem c1_dry_run_no_mutation :
    ∀ (r : Path → Bool) (p : String → Bool) (h : Path)
      (ids : List String) (fs : FileSys),
      (run_process ⟨true, r, p, h⟩ ids fs).fs = fs ∧
      (run_process ⟨true, r, p, h⟩ ids fs).spawned = [] := by
  intro r p h ids fs
  have hf := (run_foldl_frame ⟨true, r, p, h⟩ ids (initState fs)).2 rfl
  exact ⟨hf.1, hf.2⟩

/-- C10: `add_directory` has no call site, so every run, in every mode,
ends (and stays throughout) with `directories_cleaned = 0`. -/
theorem c10_directories_cleaned_zero :
    ∀ (e : Engine) (ids : List String) (fs : FileSys),
      (run_process e ids fs).stats.directories_cleaned = 0 :=
  fun e ids fs => (run_foldl_frame e ids (initState fs)).1

/-- C9: the identifiers `tmp` and `var_cache` share one dispatch arm
(`clean_system_cache`), so a dry-run with both enabled performs the system
cache purge twice over the unchanged snapshot: the log stream of the
single-identifier run appears twice and both counters double. -/
theorem c9_tmp_var_cache_double :
    (∀ (e : Engine) (s : RunState), dispatchOp e "tmp" s = dispatchOp e "var_cache" s) ∧
    (∀ (r : Path → Bool) (p : String → Bool) (h : Path) (fs : FileSys),
      (run_process ⟨true, r, p, h⟩ ["tmp", "var_cache"] fs).logs =
        (run_process ⟨true, r, p, h⟩ ["tmp"] fs).logs ++
          (run_process ⟨true, r, p, h⟩ ["tmp"] fs).logs ∧
      (run_process ⟨true, r, p, h⟩ ["tmp", "var_cache"] fs).stats.files_deleted =
        2 * (run_process ⟨true, r, p, h⟩ ["tmp"] fs).stats.files_deleted ∧
      (run_process ⟨true, r, p, h⟩ ["tmp", "var_cache"] fs).stats.bytes_freed =
        2 * (run_process ⟨true, r, p, h⟩ ["tmp"] fs).stats.bytes_freed) := by
  constructor
  · intro e s
    rfl
  · intro r p h fs
    have htmp : ∀ s, dispatchOp ⟨true, r, p, h⟩ "tmp" s =
        clean_system_cache ⟨true, r, p, h⟩ s := fun _ => rfl
    have hvc : ∀ s, dispatchOp ⟨true, r, p, h⟩ "var_cache" s =
        clean_system_cache ⟨true, r, p, h⟩ s := fun _ => rfl
    have hrun1 : run_process ⟨true, r, p, h⟩ ["tmp"] fs =
        clean_system_cache ⟨true, r, p, h⟩ (initState fs) := by
      simp only [run_process, List.foldl_cons, List.foldl_nil, htmp]
    have hrun2 : run_process ⟨true, r, p, h⟩ ["tmp", "var_cache"] fs =
        clean_system_cache ⟨true, r, p, h⟩
          (clean_system_cache ⟨true, r, p, h⟩ (initState fs)) := by
      simp only [run_process, List.foldl_cons, List.foldl_nil, htmp, hvc]
    rw [hrun1, hrun2, clean_system_cache_dry ⟨true, r, p, h⟩ rfl (initState fs),
      clean_system_cache_dry ⟨true, r, p, h⟩ rfl]
    simp [initState, CleaningStats.new]
    omega

lemma stats_eq_of_fields {a b : CleaningStats}
    (h1 : a.files_deleted = b.files_deleted)
    (h2 : a.bytes_freed = b.bytes_freed)
    (h3 : a.directories_cleaned = b.directories_cleaned) : a = b := by
  cases a; cases b; simp_all

/-- C5: both purge executors range over a candidate list fixed by the
snapshot at call time — the log stream and the statistics deltas are pure
functions of the pre-call tree (`s.fs`), in every mode. -/
theorem c5_snapshot_before_mutation :
    ∀ (e : Engine) (dir : Path) (pat : Name) (s : RunState),
      ((clean_files_by_pattern e dir pat s).logs =
        s.logs ++ ((patCandidates s.fs dir pat).filter (fun f => attemptOk e f.path)).map
          (fun f => deletedLine (fileName f.path) f.size)) ∧
      ((clean_files_by_pattern e dir pat s).stats.files_deleted =
        s.stats.files_deleted +
          ((patCandidates s.fs dir pat).filter (fun f => attemptOk e f.path)).length) ∧
      ((clean_files_by_pattern e dir pat s).stats.bytes_freed =
        s.stats.bytes_freed +
          (((patCandidates s.fs dir pat).filter (fun f => attemptOk e f.path)).map FSFile.size).sum) ∧
      ((clean_directory_contents e dir s).logs =
        s.logs ++ ((dirCandidates s.fs dir).filter (fun f => attemptOk e f.path)).map
          (fun f => deletedLine (fileName f.path) f.size)) ∧
      ((clean_directory_contents e dir s).stats.files_deleted =
        s.stats.files_deleted +
          ((dirCandidates s.fs dir).filter (fun f => attemptOk e f.path)).length) ∧
      ((clean_directory_contents e dir s).stats.bytes_freed =
        s.stats.bytes_freed +
          (((dirCandidates s.fs dir).filter (fun f => attemptOk e f.path)).map FSFile.size).sum) := by
  intro e dir pat s
  exact ⟨processFiles_logs e _ s,
    (processFiles_stats e _ s).1,
    (processFiles_stats e _ s).2.1,
    processFiles_logs e _ s,
    (processFiles_stats e _ s).1,
    (processFiles_stats e _ s).2.1⟩

/-- C7: in Live mode a file whose removal fails produces no log line and no
statistics increment (only files with `remove_ok` appear in either), stays
on disk, and the rest of the batch is still processed — the logs and stats
are exactly those of the `remove_ok`-filtered candidate list. -/
theorem c7_failed_removal_silent :
    ∀ (r : Path → Bool) (p : String → Bool) (h dir : Path) (pat : Name) (s : RunState),
      ((clean_files_by_pattern ⟨false, r, p, h⟩ dir pat s).logs =
        s.logs ++ ((patCandidates s.fs dir pat).filter (fun f => r f.path)).map
          (fun f => deletedLine (fileName f.path) f.size)) ∧
      ((clean_files_by_pattern ⟨false, r, p, h⟩ dir pat s).stats.files_deleted =
        s.stats.files_deleted + ((patCandidates s.fs dir pat).filter (fun f => r f.path)).length) ∧
      ((clean_files_by_pattern ⟨false, r, p, h⟩ dir pat s).stats.bytes_freed =
        s.stats.bytes_freed +
          (((patCandidates s.fs dir pat).filter (fun f => r f.path)).map FSFile.size).sum) ∧
      (∀ f : FSFile, f ∈ s.fs.files → r f.path = false →
        f ∈ (clean_files_by_pattern ⟨false, r, p, h⟩ dir pat s).fs.files) ∧
      ((clean_directory_contents ⟨false, r, p, h⟩ dir s).logs =
        s.logs ++ ((dirCandidates s.fs dir).filter (fun f => r f.path)).map
          (fun f => deletedLine (fileName f.path) f.size)) ∧
      ((clean_directory_contents ⟨false, r, p, h⟩ dir s).stats.files_deleted =
        s.stats.files_deleted + ((dirCandidates s.fs dir).filter (fun f => r f.path)).length) ∧
      ((clean_directory_contents ⟨false, r, p, h⟩ dir s).stats.bytes_freed =
        s.stats.bytes_freed +
          (((dirCandidates s.fs dir).filter (fun f => r f.path)).map FSFile.size).sum) ∧
      (∀ f : FSFile, f ∈ s.fs.files → r f.path = false →
        f ∈ (clean_directory_contents ⟨false, r, p, h⟩ dir s).fs.files) := by
  intro r p h dir pat s
  exact ⟨processFiles_logs _ _ s,
    (processFiles_stats _ _ s).1,
    (processFiles_stats _ _ s).2.1,
    fun f hf hr => processFiles_fs_keep _ _ s f hf hr,
    processFiles_logs _ _ s,
    (processFiles_stats _ _ s).1,
    (processFiles_stats _ _ s).2.1,
    fun f hf hr => processFiles_fs_keep _ _ s f hf hr⟩

/-- C7 witness: a live pattern purge whose only candidate is refused by the
environment leaves the file in place, hypotheses discharged concretely. -/
theorem c7_failed_removal_silent_witness :
    (⟨home3 ++ [nm ".vim", nm "x.swp"], 5⟩ : FSFile) ∈ fsV.files ∧
    (fun _ : Path => false) (home3 ++ [nm ".vim", nm "x.swp"]) = false ∧
    (⟨home3 ++ [nm ".vim", nm "x.swp"], 5⟩ : FSFile) ∈
      (clean_files_by_pattern ⟨false, fun _ => false, fun _ => true, home3⟩
        home3 (nm "*.swp") ⟨fsV, [], CleaningStats.new, []⟩).fs.files :=
  ⟨by decide, rfl,
   (c7_failed_removal_silent (fun _ => false) (fun _ => true) home3 home3
      (nm "*.swp") ⟨fsV, [], CleaningStats.new, []⟩).2.2.2.1
     ⟨home3 ++ [nm ".vim", nm "x.swp"], 5⟩ (by decide) rfl⟩

/-! ### Concrete scenarios -/

/-- C2 counterexample: with only `vim` enabled and one file `~/.vim/x.swp`,
the dry-run counts the file twice (the `$HOME` scan and the `~/.vim` scan of
`clean_vim` both reach it) while the all-deletions-succeed live run counts
it once — log streams and statistics differ. -/
theorem c2_counterexample_vim_double_count :
    (run_process ⟨true, fun _ => true, fun _ => true, home3⟩ ["vim"] fsV).stats.files_deleted = 2 ∧
    (run_process ⟨false, fun _ => true, fun _ => true, home3⟩ ["vim"] fsV).stats.files_deleted = 1 ∧
    (run_process ⟨true, fun _ => true, fun _ => true, home3⟩ ["vim"] fsV).logs ≠
      (run_process ⟨false, fun _ => true, fun _ => true, home3⟩ ["vim"] fsV).logs := by
  decide

/-- C2 amended: for every snapshot, each SINGLE directory purge or pattern
purge emits in Dry-run exactly the log lines and statistics of a Live
invocation from the same state in which every deletion succeeds; the
equivalence does not extend to whole runs whose later traversals revisit
files an earlier purge deleted. -/
theorem c2_amended_single_purge_dry_live :
    ∀ (r : Path → Bool) (p pl : String → Bool) (h dir : Path) (pat : Name) (s : RunState),
      ((clean_files_by_pattern ⟨true, r, p, h⟩ dir pat s).logs =
        (clean_files_by_pattern ⟨false, fun _ => true, pl, h⟩ dir pat s).logs) ∧
      ((clean_files_by_pattern ⟨true, r, p, h⟩ dir pat s).stats =
        (clean_files_by_pattern ⟨false, fun _ => true, pl, h⟩ dir pat s).stats) ∧
      ((clean_directory_contents ⟨true, r, p, h⟩ dir s).logs =
        (clean_directory_contents ⟨false, fun _ => true, pl, h⟩ dir s).logs) ∧
      ((clean_directory_contents ⟨true, r, p, h⟩ dir s).stats =
        (clean_directory_contents ⟨false, fun _ => true, pl, h⟩ dir s).stats) := by
  intro r p pl h dir pat s
  refine ⟨?_, ?_, ?_, ?_⟩
  · exact (processFiles_logs ⟨true, r, p, h⟩ _ s).trans
      (processFiles_logs ⟨false, fun _ => true, pl, h⟩ _ s).symm
  · exact stats_eq_of_fields
      (((processFiles_stats ⟨true, r, p, h⟩ _ s).1).trans
        ((processFiles_stats ⟨false, fun _ => true, pl, h⟩ _ s).1).symm)
      (((processFiles_stats ⟨true, r, p, h⟩ _ s).2.1).trans
        ((processFiles_stats ⟨false, fun _ => true, pl, h⟩ _ s).2.1).symm)
      (((processFiles_stats ⟨true, r, p, h⟩ _ s).2.2).trans
        ((processFiles_stats ⟨false, fun _ => true, pl, h⟩ _ s).2.2).symm)
  · exact (processFiles_logs ⟨true, r, p, h⟩ _ s).trans
      (processFiles_logs ⟨false, fun _ => true, pl, h⟩ _ s).symm
  · exact stats_eq_of_fields
      (((processFiles_stats ⟨true, r, p, h⟩ _ s).1).trans
        ((processFiles_stats ⟨false, fun _ => true, pl, h⟩ _ s).1).symm)
      (((processFiles_stats ⟨true, r, p, h⟩ _ s).2.1).trans
        ((processFiles_stats ⟨false, fun _ => true, pl, h⟩ _ s).2.1).symm)
      (((processFiles_stats ⟨true, r, p, h⟩ _ s).2.2).trans
        ((processFiles_stats ⟨false, fun _ => true, pl, h⟩ _ s).2.2).symm)

/-- C3 counterexample: in the end-to-end dry-run scenario the final
statistics are NOT `files_deleted = 2, bytes_freed = 15`: `clean_vim` scans
both `$HOME` and `~/.vim`, so `session.swp` is counted twice. -/
theorem c3_counterexample_end_to_end :
    ¬ ((run_process ⟨true, fun _ => true, fun _ => true, home3⟩ ["trash", "vim"] fs3).stats.files_deleted = 2 ∧
       (run_process ⟨true, fun _ => true, fun _ => true, home3⟩ ["trash", "vim"] fs3).stats.bytes_freed = 15) := by
  decide

/-- C3 amended: the dry-run with `["trash", "vim"]` on that snapshot ends
with `files_deleted = 3`, `bytes_freed = 20` (`session.swp` is traversed by
both the `$HOME` scan and the `~/.vim` scan of `clean_vim`),
`directories_cleaned = 0`, and the filesystem — both files included — is
untouched. -/
theorem c3_amended_end_to_end :
    (run_process ⟨true, fun _ => true, fun _ => true, home3⟩ ["trash", "vim"] fs3).stats =
      ⟨3, 20, 0⟩ ∧
    (run_process ⟨true, fun _ => true, fun _ => true, home3⟩ ["trash", "vim"] fs3).fs = fs3 := by
  decide

/-- C4 counterexample: the clipboard operation in Dry-run with `xclip`
present emits NO log line (its log sits behind `!dry_run`), spawning
nothing. -/
theorem c4_counterexample_clipboard_silent :
    (run_process ⟨true, fun _ => true, fun _ => true, home3⟩ ["clipboard"] fsV).logs = [] ∧
    (run_process ⟨true, fun _ => true, fun _ => true, home3⟩ ["clipboard"] fsV).spawned = [] := by
  decide

/-- C4 amended: in Dry-run, `apt` and `dnf` with their tool present spawn
nothing and emit exactly their single announce line, `flatpak` spawns
nothing, and `clipboard` emits no log line at all and spawns nothing. -/
theorem c4_amended_external_tools_dry :
    ∀ (r : Path → Bool) (p : String → Bool) (h : Path) (s : RunState),
      (p "apt-get" = true →
        clean_apt ⟨true, r, p, h⟩ s = logMsg s "📦 Running APT cleanup...") ∧
      (p "dnf" = true →
        clean_dnf ⟨true, r, p, h⟩ s = logMsg s "📦 Running DNF cleanup...") ∧
      ((clean_flatpak ⟨true, r, p, h⟩ s).spawned = s.spawned) ∧
      (clean_clipboard ⟨true, r, p, h⟩ s = s) := by
  intro r p h s
  refine ⟨fun hp => ?_, fun hp => ?_, ?_, ?_⟩
  · simp [clean_apt, hp]
  · simp [clean_dnf, hp]
  · by_cases hp : p "flatpak" = true
    · have h1 := (opFrame_cdc ⟨true, r, p, h⟩ (h ++ [nm ".var", nm "app"])
        (logMsg s "📦 Cleaning Flatpak cache...")).2 rfl
      simpa [clean_flatpak, hp] using h1.2
    · simp [clean_flatpak, hp]
  · simp [clean_clipboard]

/-- C4 witness: the amended statement applied at a concrete dry-run engine
and state. -/
theorem c4_amended_external_tools_dry_witness :
    (fun _ : String => true) "apt-get" = true ∧
    clean_apt ⟨true, fun _ => true, fun _ => true, home3⟩ ⟨fsV, [], CleaningStats.new, []⟩ =
      logMsg ⟨fsV, [], CleaningStats.new, []⟩ "📦 Running APT cleanup..." ∧
    clean_clipboard ⟨true, fun _ => true, fun _ => true, home3⟩ ⟨fsV, [], CleaningStats.new, []⟩ =
      ⟨fsV, [], CleaningStats.new, []⟩ :=
  ⟨rfl,
   (c4_amended_external_tools_dry (fun _ => true) (fun _ => true) home3
      ⟨fsV, [], CleaningStats.new, []⟩).1 rfl,
   (c4_amended_external_tools_dry (fun _ => true) (fun _ => true) home3
      ⟨fsV, [], CleaningStats.new, []⟩).2.2.2⟩

/-! ### Matcher shape lemmas -/

lemma isPrefixOf_eq (l₁ l₂ : Name) : l₁.isPrefixOf l₂ = true ↔ l₁ <+: l₂ :=
  List.isPrefixOf_iff_prefix

lemma isSuffixOf_eq (l₁ l₂ : Name) : l₁.isSuffixOf l₂ = true ↔ l₁ <:+ l₂ :=
  List.isSuffixOf_iff_suffix

lemma containsSub_iff (sub name : Name) :
    containsSub sub name = true ↔ sub <:+: name := by
  simp only [containsSub, List.any_eq_true]
  constructor
  · rintro ⟨t, ht, hp⟩
    exact List.infix_iff_prefix_suffix.mpr
      ⟨t, (isPrefixOf_eq sub t).mp hp, (List.mem_tails t name).mp ht⟩
  · intro hinf
    obtain ⟨t, hpre, hsuf⟩ := List.infix_iff_prefix_suffix.mp hinf
    exact ⟨t, (List.mem_tails t name).mpr hsuf, (isPrefixOf_eq sub t).mpr hpre⟩

lemma matchesPattern_both (t name : Name) :
    matchesPattern ('*' :: (t ++ ['*'])) name = containsSub t name := by
  have h2 : endsWithStar ('*' :: (t ++ ['*'])) = true := by
    have he : ('*' :: (t ++ ['*'])) = ('*' :: t) ++ ['*'] := by simp
    rw [endsWithStar, he, List.getLast?_concat]; rfl
  have h3 : (('*' :: (t ++ ['*'])).drop 1).dropLast = t := by
    simp [List.dropLast_concat]
  simp [matchesPattern, startsWithStar, h2, h3]

lemma matchesPattern_left (s name : Name) (hs : s ≠ [])
    (hlast : s.getLast? ≠ some '*') :
    matchesPattern ('*' :: s) name = s.isSuffixOf name := by
  have h2 : endsWithStar ('*' :: s) = false := by
    obtain ⟨a, l, rfl⟩ := List.exists_cons_of_ne_nil hs
    rw [endsWithStar, List.getLast?_cons_cons]
    exact beq_eq_false_iff_ne.mpr hlast
  simp [matchesPattern, startsWithStar, h2]

lemma matchesPattern_right (s name : Name) (hs : s ≠ [])
    (hhead : s.head? ≠ some '*') :
    matchesPattern (s ++ ['*']) name = s.isPrefixOf name := by
  have h1 : startsWithStar (s ++ ['*']) = false := by
    obtain ⟨a, l, rfl⟩ := List.exists_cons_of_ne_nil hs
    rw [startsWithStar]
    simp only [List.cons_append, List.head?_cons]
    have ha : a ≠ '*' := by
      intro h
      exact hhead (by simp [h])
    simp [ha]
  have h2 : endsWithStar (s ++ ['*']) = true := by
    rw [endsWithStar, List.getLast?_concat]; rfl
  have h3 : (s ++ ['*']).dropLast = s := by simp [List.dropLast_concat]
  simp [matchesPattern, h1, h2, h3]

lemma matchesPattern_exact (p name : Name) (hstar : '*' ∉ p) :
    matchesPattern p name = (name == p) := by
  have h1 : startsWithStar p = false := by
    cases p with
    | nil => rfl
    | cons a l =>
        rw [startsWithStar, List.head?_cons]
        have ha : a ≠ '*' := fun h => hstar (h ▸ List.mem_cons_self a l)
        simp [ha]
  have h2 : endsWithStar p = false := by
    cases hq : p.getLast? with
    | none => rw [endsWithStar, hq]; rfl
    | some a =>
        rw [endsWithStar, hq]
        have ha : a ∈ p := List.mem_of_mem_getLast? hq
        have ha2 : a ≠ '*' := fun h => hstar (h ▸ ha)
        simp [ha2]
  simp [matchesPattern, h1, h2]

/-- C6: the matcher decides by shape — `*text*` is substring containment,
`*suffix` is a suffix test, `prefix*` a prefix test (shape hypotheses keep
the classification unambiguous), no wildcard is exact equality; and
`*.log` over `{a.log, a.logx, .log}` matches exactly `{a.log, .log}`. -/
theorem c6_pattern_matcher_shapes :
    (∀ (t name : Name), matchesPattern ('*' :: (t ++ ['*'])) name = true ↔ t <:+: name) ∧
    (∀ (s name : Name), s ≠ [] → s.getLast? ≠ some '*' →
      (matchesPattern ('*' :: s) name = true ↔ s <:+ name)) ∧
    (∀ (s name : Name), s ≠ [] → s.head? ≠ some '*' →
      (matchesPattern (s ++ ['*']) name = true ↔ s <+: name)) ∧
    (∀ (p name : Name), '*' ∉ p → (matchesPattern p name = true ↔ name = p)) ∧
    (matchesPattern (nm "*.log") (nm "a.log") = true ∧
     matchesPattern (nm "*.log") (nm "a.logx") = false ∧
     matchesPattern (nm "*.log") (nm ".log") = true) := by
  refine ⟨fun t name => ?_, fun s name hs hl => ?_, fun s name hs hh => ?_,
    fun p name hp => ?_, by decide, by decide, by decide⟩
  · rw [matchesPattern_both]; exact containsSub_iff t name
  · rw [matchesPattern_left s name hs hl]; exact isSuffixOf_eq s name
  · rw [matchesPattern_right s name hs hh]; exact isPrefixOf_eq s name
  · rw [matchesPattern_exact p name hp]; exact beq_iff_eq

/-- C6 witness: the suffix shape applied to the concrete pattern `*.log`
and the name `a.log`, hypotheses discharged by evaluation. -/
theorem c6_pattern_matcher_shapes_witness :
    (nm ".log" ≠ [] ∧ (nm ".log").getLast? ≠ some '*') ∧
    matchesPattern ('*' :: nm ".log") (nm "a.log") = true :=
  ⟨⟨by decide, by decide⟩,
   (c6_pattern_matcher_shapes.2.1 (nm ".log") (nm "a.log")
      (by decide) (by decide)).mpr (by decide)⟩

/-! ### format_bytes lemmas -/

lemma unitIndexLoop_le : ∀ (fuel b i : Nat), i ≤ 4 → unitIndexLoop fuel b i ≤ 4
  | 0, _, _, h => h
  | fuel + 1, b, i, h => by
      simp only [unitIndexLoop]
      split
      · next hc =>
          obtain ⟨-, hlt⟩ := hc
          exact unitIndexLoop_le fuel b (i + 1) (by omega)
      · exact h

lemma unit_index_eq_four {b : Nat} (hb : 1024 ^ 4 ≤ b) : unit_index b = 4 := by
  have h1 : 1024 ≤ b := le_trans (by norm_num) hb
  have h2 : 1048576 ≤ b := le_trans (by norm_num) hb
  have h3 : 1073741824 ≤ b := le_trans (by norm_num) hb
  have h4 : 1099511627776 ≤ b := le_trans (by norm_num) hb
  simp [unit_index, unitIndexLoop, h1, h2, h3, h4]

/-- C8: `format_bytes` scales by successive division by 1024 through
B, KB, MB, GB, TB with two rendered decimals — witnessed at 0, 1536 and
2^40 — and the unit index is bounded by TB: it never exceeds 4, and every
byte count at or beyond one TB selects the TB unit. -/
theorem c8_format_bytes_spec :
    format_bytes 0 = "0.00 B" ∧
    format_bytes 1536 = "1.50 KB" ∧
    format_bytes 1099511627776 = "1.00 TB" ∧
    (∀ b : Nat, unit_index b ≤ 4) ∧
    (∀ b : Nat, 1024 ^ 4 ≤ b →
      unit_index b = 4 ∧ UNITS.getD (unit_index b) "" = "TB") := by
  refine ⟨by decide, by decide, by decide,
    fun b => unitIndexLoop_le 4 b 0 (by omega), fun b hb => ?_⟩
  have h := unit_index_eq_four hb
  refine ⟨h, ?_⟩
  rw [h]; decide

/-- C8 witness: the beyond-one-TB clause applied at twice 2^40 bytes. -/
theorem c8_format_bytes_spec_witness :
    1024 ^ 4 ≤ 2199023255552 ∧ unit_index 2199023255552 = 4 ∧
    UNITS.getD (unit_index 2199023255552) "" = "TB" :=
  ⟨by decide,
   (c8_format_bytes_spec.2.2.2.2 2199023255552 (by decide)).1,
   (c8_format_bytes_spec.2.2.2.2 2199023255552 (by decide)).2⟩

end SuperCleaner
